import Mathlib

/-
Verification of the module registry in src/utils/src/module.c (omxil_core).

The registry is a mutex-guarded singly linked list of `struct module`
entries, deduplicated by name and by loader handle, with reference
counting, optional module_init/module_exit callbacks, symbol lookup, and a
process-wide last-error slot.

Shallow embedding conventions:
- Pointers and loader handles are natural numbers; 0 stands for NULL.
  The address of a heap-allocated `struct module` is its `id` field,
  drawn from a monotone counter `nextId` when the node is linked.
- The platform loader (dlopen, dlsym, dlclose, dlerror) and the two
  allocation sites (malloc of the node, strdup of the name) are an oracle
  `DlEnv`: a pure record of what each primitive would answer.
- Each operation returns the new registry state, its C return value, and a
  trace of the observable events it performed (mutex lock and unlock,
  dlopen and dlclose invocations, calls into module_init and module_exit,
  and frees of a linked node and of its name string).  The trace follows
  the exact order of the C control flow, including the paths of
  module_open that unlock the mutex twice (lines 159 and 184 followed by
  line 212) and the early return of module_close at lines 226-229 that
  does not unlock at all.
- omx_errorLog and omx_verboseLog are diagnostics with no contract and are
  not modelled.  module_set_error(e) is modelled as storing the message
  (the strdup inside it is assumed to succeed).
-/

/-- Mirror of `struct module` (module.h) as used by module.c.  The `next`
field is represented by list structure, `priv` and the raw init and exit
function pointers are not observable in the model; `hasExit` records
whether `module_exit` was resolved (exit set non-NULL).  `id` stands for
the address of the malloc-ed struct. -/
structure ModuleEntry where
  id : Nat
  name : String
  handle : Nat
  ref_count : Nat
  hasExit : Bool
  deriving Repr, DecidableEq

/-- Global registry state: `g_module_head` as a list in link order,
`g_module_err` (the Last Error slot), and the allocator counter used to
hand out fresh node addresses. -/
structure Registry where
  mods : List ModuleEntry
  err : Option String
  nextId : Nat
  deriving Repr, DecidableEq

/-- Initial state: empty `g_module_head`, NULL `g_module_err`. -/
def Registry.empty : Registry :=
  { mods := [], err := none, nextId := 0 }

/-- Oracle for the platform loader and the allocator.  `dlopenRes` gives
the outcome of dlopen(file, flag) as detected via dlerror (error message,
or the returned handle); `dlsymRes` gives the outcome of
dlsym(handle, sym); `initRet` is the value a call to the resolved
module_init of the library behind a handle would return; `dlcloseErr` is
the dlerror outcome of dlclose(handle); `mallocOk` and `strdupOk` say
whether malloc of the node and strdup of the file name succeed. -/
structure DlEnv where
  dlopenRes : String → Int → Except String Nat
  dlsymRes : Nat → String → Except String Nat
  initRet : Nat → Int
  dlcloseErr : Nat → Option String
  mallocOk : Bool
  strdupOk : Bool

/-- Whether a dlsym outcome means the symbol was found (no dlerror). -/
def symFound (r : Except String Nat) : Bool :=
  match r with
  | Except.ok _ => true
  | Except.error _ => false

/-- Observable events of one registry operation, in program order. -/
inductive Event where
  | lock
  | unlock
  | dlopenCall (file : String)
  | dlcloseCall (handle : Nat)
  | initCall (handle : Nat)
  | exitCall (handle : Nat)
  | freeName (id : Nat)
  | freeModule (id : Nat)
  deriving Repr, DecidableEq

/-- module.c lines 48-59: linear scan of the list comparing names. -/
def module_find_with_name (head : List ModuleEntry) (filename : String) : Option ModuleEntry :=
  head.find? (fun m => m.name == filename)

/-- module.c lines 61-72: linear scan of the list comparing handles. -/
def module_find_with_handle (head : List ModuleEntry) (handle : Nat) : Option ModuleEntry :=
  head.find? (fun m => m.handle == handle)

/-- module.c lines 74-86: append at the tail (or become the head). -/
def module_add_list (head : List ModuleEntry) (add : ModuleEntry) : List ModuleEntry :=
  head ++ [add]

/-- module.c lines 88-104: unlink the node `del` (given by its address)
from the list.  The C walks to the predecessor of `del` and splices it
out; for a node present in the list this removes exactly the first node
whose address is `del`. -/
def module_del_list : List ModuleEntry → Nat → List ModuleEntry
  | [], _ => []
  | m :: rest, del => if m.id = del then rest else m :: module_del_list rest del

/-- module.c lines 106-115: replace the Last Error slot. -/
def module_set_error (st : Registry) (dlerr : Option String) : Registry :=
  { st with err := dlerr }

/-- In-place `existing->ref_count++` on the node with address `i`. -/
def refIncF (i : Nat) (m : ModuleEntry) : ModuleEntry :=
  if m.id = i then { m with ref_count := m.ref_count + 1 } else m

/-- The registry list after `ref_count++` on the node with address `i`. -/
def module_ref_inc (mods : List ModuleEntry) (i : Nat) : List ModuleEntry :=
  mods.map (refIncF i)

/-- In-place `module->ref_count--` on the node with address `i`. -/
def refDecF (i : Nat) (m : ModuleEntry) : ModuleEntry :=
  if m.id = i then { m with ref_count := m.ref_count - 1 } else m

/-- The registry list after `ref_count--` on the node with address `i`. -/
def module_ref_dec (mods : List ModuleEntry) (i : Nat) : List ModuleEntry :=
  mods.map (refDecF i)

/-- Result of module_open: state, returned pointer (none = NULL), trace. -/
structure OpenResult where
  st : Registry
  ret : Option Nat
  trace : List Event
  deriving Repr

/-- Result of module_close: state, returned int, trace. -/
structure CloseResult where
  st : Registry
  ret : Int
  trace : List Event
  deriving Repr

/-- Result of module_symbol: state, returned address (0 = NULL), trace. -/
structure SymbolResult where
  st : Registry
  ret : Nat
  trace : List Event
  deriving Repr

/-- module.c lines 164-213: the tail of module_open once a handle has
been obtained (from the preload argument or from dlopen), starting at the
dedup-by-handle check.  `pre` is the trace accumulated so far.  Paths:
dedup by handle (lines 164-172); module_init resolution and call (174-180);
init failure (182-186: unlock, then fall into free_handle which dlcloses,
frees the node, and unlocks again); module_exit resolution (188-192);
strdup failure (194-199: call exit if resolved, dlclose, free, one
unlock); success (201-204: link the node, unlock). -/
def module_open_have_handle (env : DlEnv) (st : Registry) (file : String)
    (hnd : Nat) (pre : List Event) : OpenResult :=
  match module_find_with_handle st.mods hnd with
  | some existing =>
      { st := { st with mods := module_ref_inc st.mods existing.id },
        ret := some existing.id,
        trace := pre ++ [Event.unlock] }
  | none =>
      let hasInit := symFound (env.dlsymRes hnd ("module_init"))
      let initEvts : List Event := if hasInit then [Event.initCall hnd] else []
      let init_ret : Int := if hasInit then env.initRet hnd else 0
      if init_ret ≠ 0 then
        { st := st, ret := none,
          trace := pre ++ initEvts ++
            [Event.unlock, Event.dlcloseCall hnd,
             Event.freeModule st.nextId, Event.unlock] }
      else
        let hasExit := symFound (env.dlsymRes hnd ("module_exit"))
        if env.strdupOk then
          { st := { st with
              mods := module_add_list st.mods
                { id := st.nextId, name := file, handle := hnd,
                  ref_count := 1, hasExit := hasExit },
              nextId := st.nextId + 1 },
            ret := some st.nextId,
            trace := pre ++ initEvts ++ [Event.unlock] }
        else
          { st := st, ret := none,
            trace := pre ++ initEvts ++
              (if hasExit then [Event.exitCall hnd] else []) ++
              [Event.dlcloseCall hnd, Event.freeModule st.nextId, Event.unlock] }

/-- module.c lines 122-214, module_open(file, flag, preload).  Lock; dedup
by name (131-137); malloc the node (139-143); take the preload handle or
dlopen (150-162, with the dlopen failure path unlocking at line 159 and
again at line 212 after freeing the node); then continue with the handle
(module_open_have_handle). -/
def module_open (env : DlEnv) (st : Registry) (file : String) (flag : Int)
    (preload : Nat) : OpenResult :=
  match module_find_with_name st.mods file with
  | some existing =>
      { st := { st with mods := module_ref_inc st.mods existing.id },
        ret := some existing.id,
        trace := [Event.lock, Event.unlock] }
  | none =>
      if env.mallocOk then
        if preload ≠ 0 then
          module_open_have_handle env st file preload [Event.lock]
        else
          match env.dlopenRes file flag with
          | Except.error dlerr =>
              { st := module_set_error st (some dlerr), ret := none,
                trace := [Event.lock, Event.dlopenCall file, Event.unlock,
                          Event.freeModule st.nextId, Event.unlock] }
          | Except.ok hnd =>
              module_open_have_handle env st file hnd
                [Event.lock, Event.dlopenCall file]
      else
        { st := st, ret := none, trace := [Event.lock, Event.unlock] }

/-- module.c lines 216-262, module_close(module, preload).  NULL module or
NULL handle: return 0 before taking the lock (221-222).  Lock (224).  If
ref_count is already 0: log and return 0, without unlocking (226-229, the
early return leaks the lock).  Otherwise decrement; if the count is still
nonzero return it (231-234, 260-261).  At zero: call exit if resolved
(237-238); if not preload, dlclose and on dlerror record Last Error and
make the result -1 (240-248); unlink the node (250); if not preload, free
the name and the node (254-257); unlock and return (260-261). -/
def module_close (env : DlEnv) (st : Registry) (modptr : Option ModuleEntry)
    (preload : Bool) : CloseResult :=
  match modptr with
  | none => { st := st, ret := 0, trace := [] }
  | some m =>
      if m.handle = 0 then
        { st := st, ret := 0, trace := [] }
      else if m.ref_count = 0 then
        { st := st, ret := 0, trace := [Event.lock] }
      else
        let newCount := m.ref_count - 1
        let mods1 := module_ref_dec st.mods m.id
        if newCount = 0 then
          let exitEvts : List Event :=
            if m.hasExit then [Event.exitCall m.handle] else []
          if preload then
            { st := { st with mods := module_del_list mods1 m.id },
              ret := 0,
              trace := [Event.lock] ++ exitEvts ++ [Event.unlock] }
          else
            match env.dlcloseErr m.handle with
            | some e =>
                { st := module_set_error
                    { st with mods := module_del_list mods1 m.id } (some e),
                  ret := -1,
                  trace := [Event.lock] ++ exitEvts ++
                    [Event.dlcloseCall m.handle, Event.freeName m.id,
                     Event.freeModule m.id, Event.unlock] }
            | none =>
                { st := { st with mods := module_del_list mods1 m.id },
                  ret := 0,
                  trace := [Event.lock] ++ exitEvts ++
                    [Event.dlcloseCall m.handle, Event.freeName m.id,
                     Event.freeModule m.id, Event.unlock] }
        else
          { st := { st with mods := mods1 }, ret := (newCount : Int),
            trace := [Event.lock, Event.unlock] }

/-- module.c lines 264-288, module_symbol(module, string).  NULL module,
NULL handle or NULL string: return NULL before taking the lock (269-270).
Lock; dlsym; on dlerror record Last Error and return NULL, else return
the address; unlock (272-287).  Success does not touch Last Error. -/
def module_symbol (env : DlEnv) (st : Registry) (modptr : Option ModuleEntry)
    (str : Option String) : SymbolResult :=
  match modptr with
  | none => { st := st, ret := 0, trace := [] }
  | some m =>
      if m.handle = 0 then
        { st := st, ret := 0, trace := [] }
      else
        match str with
        | none => { st := st, ret := 0, trace := [] }
        | some s =>
            match env.dlsymRes m.handle s with
            | Except.error e =>
                { st := module_set_error st (some e), ret := 0,
                  trace := [Event.lock, Event.unlock] }
            | Except.ok addr =>
                { st := st, ret := addr, trace := [Event.lock, Event.unlock] }

/-- Mutex state after replaying a trace: true iff the last lock or unlock
event locked the mutex. -/
def lockHeldAfter (tr : List Event) : Bool :=
  tr.foldl
    (fun held e =>
      match e with
      | Event.lock => true
      | Event.unlock => false
      | _ => held)
    false

/-- Registry states reachable from the empty registry by any sequence of
the three public mutators, each against an arbitrary loader oracle. -/
inductive Reachable : Registry → Prop where
  | base : Reachable Registry.empty
  | open_step (env : DlEnv) (st : Registry) (file : String) (flag : Int)
      (preload : Nat) : Reachable st →
      Reachable (module_open env st file flag preload).st
  | close_step (env : DlEnv) (st : Registry) (modptr : Option ModuleEntry)
      (preload : Bool) : Reachable st →
      Reachable (module_close env st modptr preload).st
  | symbol_step (env : DlEnv) (st : Registry) (modptr : Option ModuleEntry)
      (str : Option String) : Reachable st →
      Reachable (module_symbol env st modptr str).st

/-- At most one list entry per distinct name. -/
def UniqueNames (mods : List ModuleEntry) : Prop :=
  mods.Pairwise (fun a b => a.name ≠ b.name)

/-- At most one list entry per distinct underlying handle. -/
def UniqueHandles (mods : List ModuleEntry) : Prop :=
  mods.Pairwise (fun a b => a.handle ≠ b.handle)

/-- A loader oracle under which opening succeeds: dlopen always yields
handle 7, no library exports module_init or module_exit, dlclose never
reports an error, and both allocations succeed. -/
def envA : DlEnv :=
  { dlopenRes := fun _ _ => Except.ok 7,
    dlsymRes := fun _ _ => Except.error ("undefined symbol"),
    initRet := fun _ => 0,
    dlcloseErr := fun _ => none,
    mallocOk := true,
    strdupOk := true }

/-- C1: starting from the empty registry, a successful module_open of a
path yields an entry with ref_count 1; a second module_open of the same
path returns the same entry (same address, id 0) with ref_count 2 and
performs no new dlopen; module_close(entry, 0) then returns 1 with the
entry still listed; a second module_close(entry, 0) returns 0, removes
the entry from the list, and dlcloses the underlying handle. -/
theorem c1_open_close_sequence (env : DlEnv) (file : String) (flag : Int)
    (hnd : Nat) (hm : env.mallocOk = true) (hs : env.strdupOk = true)
    (hop : env.dlopenRes file flag = Except.ok hnd) (hnz : hnd ≠ 0)
    (hinit : env.initRet hnd = 0) (hcl : env.dlcloseErr hnd = none) :
    let hx := symFound (env.dlsymRes hnd ("module_exit"))
    let e1 : ModuleEntry := ⟨0, file, hnd, 1, hx⟩
    let e2 : ModuleEntry := ⟨0, file, hnd, 2, hx⟩
    let r1 := module_open env Registry.empty file flag 0
    let r2 := module_open env r1.st file flag 0
    let r3 := module_close env r2.st (some e2) false
    let r4 := module_close env r3.st (some e1) false
    (r1.ret = some 0 ∧ r1.st.mods = [e1]) ∧
    (r2.ret = some 0 ∧ r2.st.mods = [e2] ∧ Event.dlopenCall file ∉ r2.trace) ∧
    (r3.ret = 1 ∧ r3.st.mods = [e1]) ∧
    (r4.ret = 0 ∧ r4.st.mods = [] ∧ Event.dlcloseCall hnd ∈ r4.trace) := by
  cases hie : env.dlsymRes hnd ("module_init") <;>
    cases hee : env.dlsymRes hnd ("module_exit") <;>
      simp [module_open, module_open_have_handle, module_close,
        module_find_with_name, module_find_with_handle, module_ref_inc,
        module_ref_dec, refIncF, refDecF, module_add_list, module_del_list,
        module_set_error, Registry.empty, symFound,
        hm, hs, hop, hnz, hinit, hcl, hie, hee]

/-- C1 witness: the scenario instantiated with the concrete oracle envA,
path libA.so, flag 0 and handle 7. -/
theorem c1_open_close_sequence_witness :
    let hx := symFound (envA.dlsymRes 7 ("module_exit"))
    let e1 : ModuleEntry := ⟨0, ("libA.so"), 7, 1, hx⟩
    let e2 : ModuleEntry := ⟨0, ("libA.so"), 7, 2, hx⟩
    let r1 := module_open envA Registry.empty ("libA.so") 0 0
    let r2 := module_open envA r1.st ("libA.so") 0 0
    let r3 := module_close envA r2.st (some e2) false
    let r4 := module_close envA r3.st (some e1) false
    (r1.ret = some 0 ∧ r1.st.mods = [e1]) ∧
    (r2.ret = some 0 ∧ r2.st.mods = [e2] ∧ Event.dlopenCall ("libA.so") ∉ r2.trace) ∧
    (r3.ret = 1 ∧ r3.st.mods = [e1]) ∧
    (r4.ret = 0 ∧ r4.st.mods = [] ∧ Event.dlcloseCall 7 ∈ r4.trace) :=
  c1_open_close_sequence envA ("libA.so") 0 7 rfl rfl rfl (by decide) rfl rfl

/-- A loader oracle whose libraries export a module_init that returns 3
(the spec scenario for a fatal initializer), and no module_exit. -/
def envInitFail : DlEnv :=
  { dlopenRes := fun _ _ => Except.ok 7,
    dlsymRes := fun _ s =>
      if s == ("module_init") then Except.ok 1
      else Except.error ("undefined symbol"),
    initRet := fun _ => 3,
    dlcloseErr := fun _ => none,
    mallocOk := true,
    strdupOk := true }

/-- C2 evidence: on the failing input, module_close of an entry whose
ref_count is already zero returns while still holding the registry mutex;
the trace of the call is a single lock with no unlock (module.c lines
226-229 return without pthread_mutex_unlock). -/
theorem c2_close_underflow_leaks_lock :
    (module_close envA
        { mods := [⟨0, ("libA.so"), 7, 0, false⟩], err := none, nextId := 1 }
        (some ⟨0, ("libA.so"), 7, 0, false⟩) false).trace = [Event.lock] ∧
    lockHeldAfter
      (module_close envA
        { mods := [⟨0, ("libA.so"), 7, 0, false⟩], err := none, nextId := 1 }
        (some ⟨0, ("libA.so"), 7, 0, false⟩) false).trace = true := by
  constructor <;> rfl

/-- C4 counterexample: with the oracle envInitFail the initializer of the
opened library returns 3, module_open returns NULL, yet the Last Error
slot is left untouched (still NULL): the failure path at module.c lines
182-186 only logs and never calls module_set_error, contradicting the
claim that Last Error is set as for a load failure. -/
theorem c4_init_failure_counterexample :
    envInitFail.initRet 7 = 3 ∧
    (module_open envInitFail Registry.empty ("libA.so") 0 0).ret = none ∧
    (module_open envInitFail Registry.empty ("libA.so") 0 0).st.err = none := by
  refine ⟨rfl, ?_, ?_⟩ <;> rfl

/-- C4 amended: if module_init is resolved and returns nonzero during a
fresh module_open, then module_open returns NULL, the partially opened
module is unwound by dlclosing its handle, and the whole registry state
(list, Last Error slot and allocator) is exactly as before the call, so
a subsequent name-based lookup finds no entry for that path; in
particular the Last Error slot is NOT updated, the failure is only
logged. -/
theorem c4_init_failure_amended (env : DlEnv) (st : Registry) (file : String)
    (flag : Int) (hnd : Nat)
    (hm : env.mallocOk = true)
    (hn : module_find_with_name st.mods file = none)
    (hop : env.dlopenRes file flag = Except.ok hnd)
    (hh : module_find_with_handle st.mods hnd = none)
    (hsym : symFound (env.dlsymRes hnd ("module_init")) = true)
    (hir : env.initRet hnd ≠ 0) :
    let r := module_open env st file flag 0
    r.ret = none ∧ r.st = st ∧ Event.dlcloseCall hnd ∈ r.trace ∧
    module_find_with_name r.st.mods file = none := by
  simp [module_open, module_open_have_handle, hm, hn, hop, hh, hsym, hir]

/-- C4 amended witness: the amended statement at the concrete oracle
envInitFail, empty registry, path libA.so, flag 0, handle 7. -/
theorem c4_init_failure_amended_witness :
    let r := module_open envInitFail Registry.empty ("libA.so") 0 0
    r.ret = none ∧ r.st = Registry.empty ∧ Event.dlcloseCall 7 ∈ r.trace ∧
    module_find_with_name r.st.mods ("libA.so") = none :=
  c4_init_failure_amended envInitFail Registry.empty ("libA.so") 0 7
    rfl rfl rfl rfl rfl (by decide)

/-- C5: module_close on an entry whose ref_count is already zero returns 0
and changes nothing: the registry state (list, Last Error, allocator) is
untouched, and neither the finalizer nor dlclose nor any free is invoked.
This holds for both values of the preload flag. -/
theorem c5_close_underflow_noop (env : DlEnv) (st : Registry)
    (m : ModuleEntry) (preload : Bool) (hr : m.ref_count = 0) :
    let r := module_close env st (some m) preload
    r.st = st ∧ r.ret = 0 ∧
    Event.exitCall m.handle ∉ r.trace ∧
    Event.dlcloseCall m.handle ∉ r.trace ∧
    Event.freeName m.id ∉ r.trace ∧
    Event.freeModule m.id ∉ r.trace := by
  by_cases hh : m.handle = 0 <;>
    simp [module_close, hh, hr]

/-- C5 witness: the underflow close at a concrete zero-count entry. -/
theorem c5_close_underflow_noop_witness :
    let st : Registry :=
      { mods := [⟨0, ("libA.so"), 7, 0, false⟩], err := none, nextId := 1 }
    let r := module_close envA st (some ⟨0, ("libA.so"), 7, 0, false⟩) true
    r.st = st ∧ r.ret = 0 ∧
    Event.exitCall 7 ∉ r.trace ∧
    Event.dlcloseCall 7 ∉ r.trace ∧
    Event.freeName 0 ∉ r.trace ∧
    Event.freeModule 0 ∉ r.trace :=
  c5_close_underflow_noop envA
    { mods := [⟨0, ("libA.so"), 7, 0, false⟩], err := none, nextId := 1 }
    ⟨0, ("libA.so"), 7, 0, false⟩ true rfl

/-- C8: when the initializer fails during module_open, the unwind path
dlcloses the handle even when that handle was supplied as a preload:
with a nonzero preload argument, a fresh name, a fresh handle, a resolved
module_init and a nonzero initializer result, the trace of module_open
contains a dlclose of the preload handle and the call returns NULL. -/
theorem c8_init_failure_dlcloses_preload (env : DlEnv) (st : Registry)
    (file : String) (flag : Int) (p : Nat)
    (hm : env.mallocOk = true)
    (hp : p ≠ 0)
    (hn : module_find_with_name st.mods file = none)
    (hh : module_find_with_handle st.mods p = none)
    (hsym : symFound (env.dlsymRes p ("module_init")) = true)
    (hir : env.initRet p ≠ 0) :
    let r := module_open env st file flag p
    r.ret = none ∧ Event.dlcloseCall p ∈ r.trace := by
  simp [module_open, module_open_have_handle, hm, hp, hn, hh, hsym, hir]

/-- C8 witness: the preload unwind at the concrete oracle envInitFail
with preload handle 9 and the empty registry. -/
theorem c8_init_failure_dlcloses_preload_witness :
    let r := module_open envInitFail Registry.empty ("libB.so") 0 9
    r.ret = none ∧ Event.dlcloseCall 9 ∈ r.trace :=
  c8_init_failure_dlcloses_preload envInitFail Registry.empty ("libB.so") 0 9
    rfl (by decide) rfl rfl rfl (by decide)

/-- Incrementing a ref count does not change the name of any node. -/
theorem refIncF_name (i : Nat) (m : ModuleEntry) : (refIncF i m).name = m.name := by
  rw [refIncF]; split <;> rfl

/-- Incrementing a ref count does not change the handle of any node. -/
theorem refIncF_handle (i : Nat) (m : ModuleEntry) : (refIncF i m).handle = m.handle := by
  rw [refIncF]; split <;> rfl

/-- Decrementing a ref count does not change the name of any node. -/
theorem refDecF_name (i : Nat) (m : ModuleEntry) : (refDecF i m).name = m.name := by
  rw [refDecF]; split <;> rfl

/-- Decrementing a ref count does not change the handle of any node. -/
theorem refDecF_handle (i : Nat) (m : ModuleEntry) : (refDecF i m).handle = m.handle := by
  rw [refDecF]; split <;> rfl

/-- Decrementing a ref count does not change the address of any node. -/
theorem refDecF_id (i : Nat) (m : ModuleEntry) : (refDecF i m).id = m.id := by
  rw [refDecF]; split <;> rfl

/-- Unlinking a node yields a sublist of the original registry list. -/
theorem module_del_list_sublist (l : List ModuleEntry) (i : Nat) :
    List.Sublist (module_del_list l i) l := by
  induction l with
  | nil => simp [module_del_list]
  | cons m rest ih =>
      by_cases h : m.id = i
      · rw [module_del_list, if_pos h]
        exact List.sublist_cons_self m rest
      · simpa [module_del_list, h] using ih.cons₂ m

/-- If the list has pairwise distinct addresses, then after unlinking the
node with address `i` no remaining node has address `i`. -/
theorem module_del_list_id_ne {l : List ModuleEntry} {i : Nat}
    (hp : l.Pairwise (fun a b => a.id ≠ b.id)) :
    ∀ x ∈ module_del_list l i, x.id ≠ i := by
  induction l with
  | nil => intro x hx; simp [module_del_list] at hx
  | cons m rest ih =>
      rcases List.pairwise_cons.mp hp with ⟨hm, hrest⟩
      intro x hx
      by_cases h : m.id = i
      · simp only [module_del_list, if_pos h] at hx
        exact fun he => hm x hx (h.trans he.symm)
      · simp only [module_del_list, if_neg h, List.mem_cons] at hx
        rcases hx with rfl | hx
        · exact h
        · exact ih hrest x hx

/-- After the teardown of module_close removes the node of `m` (decrement
to zero followed by unlink), a lookup by the name of `m` finds nothing,
provided the registry list had pairwise distinct names and addresses and
`m` was one of its nodes. -/
theorem teardown_find_name_none {mods : List ModuleEntry} {m : ModuleEntry}
    (hp : mods.Pairwise (fun a b => a.name ≠ b.name ∧ a.id ≠ b.id))
    (hmem : m ∈ mods) :
    module_find_with_name
      (module_del_list (module_ref_dec mods m.id) m.id) m.name = none := by
  rw [module_find_with_name, List.find?_eq_none]
  intro x hx
  have hpids : (module_ref_dec mods m.id).Pairwise (fun a b => a.id ≠ b.id) := by
    refine List.Pairwise.map _ ?_ (hp.imp (fun h => h.2))
    intro a b hab
    simpa [refDecF_id] using hab
  have hxid : x.id ≠ m.id := module_del_list_id_ne hpids x hx
  have hx2 : x ∈ module_ref_dec mods m.id :=
    (module_del_list_sublist _ _).subset hx
  rcases List.mem_map.mp hx2 with ⟨y, hy, rfl⟩
  have hyid : y.id ≠ m.id := by simpa [refDecF_id] using hxid
  have hyne : y ≠ m := fun he => hyid (by rw [he])
  have hsymm : Symmetric (fun a b : ModuleEntry => a.name ≠ b.name ∧ a.id ≠ b.id) :=
    fun a b h => ⟨Ne.symm h.1, Ne.symm h.2⟩
  have hR := hp.forall hsymm hy hmem hyne
  simpa [refDecF_name] using hR.1

/-- A loader oracle whose dlclose always reports an error message. -/
def envCloseErr : DlEnv :=
  { dlopenRes := fun _ _ => Except.ok 7,
    dlsymRes := fun _ _ => Except.error ("undefined symbol"),
    initRet := fun _ => 0,
    dlcloseErr := fun _ => some ("dlclose failed"),
    mallocOk := true,
    strdupOk := true }

/-- C6: when a non-preloaded module_close brings the count of an entry to
zero and dlclose reports an error, the call records the message in Last
Error and returns -1, but teardown is not rolled back: the node is still
unlinked from the registry list and both its name string and its struct
are still freed. -/
theorem c6_unload_error_still_torn_down (env : DlEnv) (st : Registry)
    (m : ModuleEntry) (e : String)
    (hh : m.handle ≠ 0) (hr : m.ref_count = 1)
    (hcl : env.dlcloseErr m.handle = some e) :
    let r := module_close env st (some m) false
    r.ret = -1 ∧ r.st.err = some e ∧
    r.st.mods = module_del_list (module_ref_dec st.mods m.id) m.id ∧
    Event.dlcloseCall m.handle ∈ r.trace ∧
    Event.freeName m.id ∈ r.trace ∧
    Event.freeModule m.id ∈ r.trace := by
  by_cases hx : m.hasExit <;>
    simp [module_close, module_set_error, hh, hr, hcl, hx]

/-- C6 witness: the teardown at the concrete oracle envCloseErr and a
one-entry registry. -/
theorem c6_unload_error_still_torn_down_witness :
    let m : ModuleEntry := ⟨0, ("libA.so"), 7, 1, false⟩
    let st : Registry := { mods := [m], err := none, nextId := 1 }
    let r := module_close envCloseErr st (some m) false
    r.ret = -1 ∧ r.st.err = some ("dlclose failed") ∧
    r.st.mods = module_del_list (module_ref_dec st.mods 0) 0 ∧
    Event.dlcloseCall 7 ∈ r.trace ∧
    Event.freeName 0 ∈ r.trace ∧
    Event.freeModule 0 ∈ r.trace :=
  c6_unload_error_still_torn_down envCloseErr
    { mods := [⟨0, ("libA.so"), 7, 1, false⟩], err := none, nextId := 1 }
    ⟨0, ("libA.so"), 7, 1, false⟩ ("dlclose failed") (by decide) rfl rfl

/-- C7: when module_close brings a preloaded entry with count 1 to zero,
the node is unlinked from the registry list and a subsequent lookup by
its name finds nothing, but nothing is freed and the library is not
unloaded: the trace contains no dlclose of its handle and no free of its
name string or struct, the call returns 0, and Last Error is untouched. -/
theorem c7_preload_close_unlinks_without_free (env : DlEnv) (st : Registry)
    (m : ModuleEntry)
    (hmem : m ∈ st.mods)
    (hp : st.mods.Pairwise (fun a b => a.name ≠ b.name ∧ a.id ≠ b.id))
    (hh : m.handle ≠ 0) (hr : m.ref_count = 1) :
    let r := module_close env st (some m) true
    r.ret = 0 ∧ r.st.err = st.err ∧
    r.st.mods = module_del_list (module_ref_dec st.mods m.id) m.id ∧
    module_find_with_name r.st.mods m.name = none ∧
    Event.dlcloseCall m.handle ∉ r.trace ∧
    Event.freeName m.id ∉ r.trace ∧
    Event.freeModule m.id ∉ r.trace := by
  have hfind := teardown_find_name_none hp hmem
  by_cases hx : m.hasExit <;>
    simp [module_close, hh, hr, hx, hfind]

/-- C7 witness: the preloaded teardown at a concrete one-entry registry. -/
theorem c7_preload_close_unlinks_without_free_witness :
    let m : ModuleEntry := ⟨0, ("libP.so"), 9, 1, false⟩
    let st : Registry := { mods := [m], err := none, nextId := 1 }
    let r := module_close envA st (some m) true
    r.ret = 0 ∧ r.st.err = st.err ∧
    r.st.mods = module_del_list (module_ref_dec st.mods 0) 0 ∧
    module_find_with_name r.st.mods ("libP.so") = none ∧
    Event.dlcloseCall 9 ∉ r.trace ∧
    Event.freeName 0 ∉ r.trace ∧
    Event.freeModule 0 ∉ r.trace :=
  c7_preload_close_unlinks_without_free envA
    { mods := [⟨0, ("libP.so"), 9, 1, false⟩], err := none, nextId := 1 }
    ⟨0, ("libP.so"), 9, 1, false⟩
    (by simp) (by simp) (by decide) rfl

/-- C9: module_symbol returns NULL at once, taking no lock and leaving
Last Error alone, when the entry is NULL, its handle is NULL, or the
symbol name is NULL; otherwise it locks and unlocks, and on a failed
dlsym it stores the loader message in Last Error and returns NULL, while
on a successful dlsym it returns the resolved address and leaves the
whole state, Last Error included, unchanged. -/
theorem c9_module_symbol_cases (env : DlEnv) (st : Registry) :
    (∀ s, module_symbol env st none s = ⟨st, 0, []⟩) ∧
    (∀ m s, m.handle = 0 → module_symbol env st (some m) s = ⟨st, 0, []⟩) ∧
    (∀ m, module_symbol env st (some m) none = ⟨st, 0, []⟩) ∧
    (∀ m s e, m.handle ≠ 0 → env.dlsymRes m.handle s = Except.error e →
      module_symbol env st (some m) (some s) =
        ⟨module_set_error st (some e), 0, [Event.lock, Event.unlock]⟩) ∧
    (∀ m s a, m.handle ≠ 0 → env.dlsymRes m.handle s = Except.ok a →
      module_symbol env st (some m) (some s) =
        ⟨st, a, [Event.lock, Event.unlock]⟩) := by
  refine ⟨fun s => rfl, fun m s h => ?_, fun m => ?_,
    fun m s e hh he => ?_, fun m s a hh ha => ?_⟩
  · simp [module_symbol, h]
  · by_cases h : m.handle = 0 <;> simp [module_symbol, h]
  · simp [module_symbol, hh, he]
  · simp [module_symbol, hh, ha]

/-- C9 witness: the failed-lookup case and the reject-before-lock case of
the statement at the concrete oracle envA. -/
theorem c9_module_symbol_cases_witness :
    module_symbol envA { mods := [], err := none, nextId := 0 }
        (some ⟨0, ("libA.so"), 7, 1, false⟩) (some ("frobnicate")) =
      ⟨module_set_error { mods := [], err := none, nextId := 0 }
          (some ("undefined symbol")), 0, [Event.lock, Event.unlock]⟩ ∧
    module_symbol envA { mods := [], err := none, nextId := 0 }
        none (some ("frobnicate")) =
      ⟨{ mods := [], err := none, nextId := 0 }, 0, []⟩ :=
  ⟨(c9_module_symbol_cases envA { mods := [], err := none, nextId := 0 }).2.2.2.1
      ⟨0, ("libA.so"), 7, 1, false⟩ ("frobnicate") ("undefined symbol")
      (by decide) rfl,
   (c9_module_symbol_cases envA { mods := [], err := none, nextId := 0 }).1
      (some ("frobnicate"))⟩

/-- C10: a preloaded module_close can never fail: for every oracle, every
registry state and every entry pointer, the result is nonnegative (never
-1), Last Error is not written, no dlclose happens, and for a non-NULL
entry with a non-NULL handle the result is exactly the decremented
reference count (with the defensive floor at zero). -/
theorem c10_preload_close_never_fails (env : DlEnv) (st : Registry)
    (modptr : Option ModuleEntry) :
    let r := module_close env st modptr true
    0 ≤ r.ret ∧ r.ret ≠ -1 ∧ r.st.err = st.err ∧
    (∀ h, Event.dlcloseCall h ∉ r.trace) ∧
    (∀ m, modptr = some m → m.handle ≠ 0 →
      r.ret = ((m.ref_count - 1 : Nat) : Int)) := by
  match modptr with
  | none => simp [module_close]
  | some m =>
      by_cases hh : m.handle = 0
      · simp [module_close, hh]
      · by_cases hr : m.ref_count = 0
        · simp [module_close, hh, hr]
        · by_cases h1 : m.ref_count - 1 = 0
          · by_cases hx : m.hasExit <;>
              simp [module_close, hh, hr, h1, hx]
          · simp [module_close, hh, hr, h1]

/-- C10 witness: a preloaded close of an entry with count 2 at the
concrete oracle envA. -/
theorem c10_preload_close_never_fails_witness :
    let m : ModuleEntry := ⟨0, ("libA.so"), 7, 2, false⟩
    let st : Registry := { mods := [m], err := none, nextId := 1 }
    let r := module_close envA st (some m) true
    0 ≤ r.ret ∧ r.ret ≠ -1 ∧ r.st.err = st.err ∧
    r.ret = ((2 - 1 : Nat) : Int) :=
  ⟨(c10_preload_close_never_fails envA
      { mods := [⟨0, ("libA.so"), 7, 2, false⟩], err := none, nextId := 1 }
      (some ⟨0, ("libA.so"), 7, 2, false⟩)).1,
   (c10_preload_close_never_fails envA
      { mods := [⟨0, ("libA.so"), 7, 2, false⟩], err := none, nextId := 1 }
      (some ⟨0, ("libA.so"), 7, 2, false⟩)).2.1,
   (c10_preload_close_never_fails envA
      { mods := [⟨0, ("libA.so"), 7, 2, false⟩], err := none, nextId := 1 }
      (some ⟨0, ("libA.so"), 7, 2, false⟩)).2.2.1,
   (c10_preload_close_never_fails envA
      { mods := [⟨0, ("libA.so"), 7, 2, false⟩], err := none, nextId := 1 }
      (some ⟨0, ("libA.so"), 7, 2, false⟩)).2.2.2.2
      ⟨0, ("libA.so"), 7, 2, false⟩ rfl (by decide)⟩

/-- The registry list produced by module_open_have_handle is the original
list, a ref-count increment on it, or (when no node has the handle) the
original list with one fresh node appended. -/
theorem module_open_have_handle_mods (env : DlEnv) (st : Registry)
    (file : String) (hnd : Nat) (pre : List Event) :
    (module_open_have_handle env st file hnd pre).st.mods = st.mods ∨
    (∃ i, (module_open_have_handle env st file hnd pre).st.mods =
        module_ref_inc st.mods i) ∨
    (module_find_with_handle st.mods hnd = none ∧
      (module_open_have_handle env st file hnd pre).st.mods =
        st.mods ++ [⟨st.nextId, file, hnd, 1,
          symFound (env.dlsymRes hnd ("module_exit"))⟩]) := by
  cases hf : module_find_with_handle st.mods hnd with
  | some e =>
      right; left
      exact ⟨e.id, by simp [module_open_have_handle, hf]⟩
  | none =>
      by_cases hi : (if symFound (env.dlsymRes hnd ("module_init")) = true
          then env.initRet hnd else 0) ≠ 0
      · left
        simp only [module_open_have_handle, hf]
        rw [if_pos hi]
      · by_cases hs : env.strdupOk = true
        · right; right
          refine ⟨rfl, ?_⟩
          simp only [module_open_have_handle, hf]
          rw [if_neg hi, if_pos hs]
          simp [module_add_list]
        · left
          simp only [module_open_have_handle, hf]
          rw [if_neg hi, if_neg hs]

/-- The registry list produced by module_open is the original list, a
ref-count increment on it, or (when neither the name nor the handle was
present) the original list with one fresh node appended. -/
theorem module_open_mods (env : DlEnv) (st : Registry) (file : String)
    (flag : Int) (preload : Nat) :
    (module_open env st file flag preload).st.mods = st.mods ∨
    (∃ i, (module_open env st file flag preload).st.mods =
        module_ref_inc st.mods i) ∨
    (module_find_with_name st.mods file = none ∧
      ∃ hnd, module_find_with_handle st.mods hnd = none ∧
        (module_open env st file flag preload).st.mods =
          st.mods ++ [⟨st.nextId, file, hnd, 1,
            symFound (env.dlsymRes hnd ("module_exit"))⟩]) := by
  cases hn : module_find_with_name st.mods file with
  | some e =>
      right; left
      exact ⟨e.id, by simp [module_open, hn]⟩
  | none =>
      by_cases hm : env.mallocOk
      · by_cases hp : preload = 0
        · cases ho : env.dlopenRes file flag with
          | error e =>
              left
              simp [module_open, hn, hm, hp, ho, module_set_error]
          | ok hnd =>
              have heq : module_open env st file flag preload =
                  module_open_have_handle env st file hnd
                    [Event.lock, Event.dlopenCall file] := by
                simp [module_open, hn, hm, hp, ho]
              rcases module_open_have_handle_mods env st file hnd
                  [Event.lock, Event.dlopenCall file] with h | ⟨i, h⟩ | ⟨hf, h⟩
              · left; rw [heq, h]
              · right; left; exact ⟨i, by rw [heq, h]⟩
              · right; right; exact ⟨rfl, hnd, hf, by rw [heq, h]⟩
        · have heq : module_open env st file flag preload =
              module_open_have_handle env st file preload [Event.lock] := by
            simp [module_open, hn, hm, hp]
          rcases module_open_have_handle_mods env st file preload [Event.lock]
            with h | ⟨i, h⟩ | ⟨hf, h⟩
          · left; rw [heq, h]
          · right; left; exact ⟨i, by rw [heq, h]⟩
          · right; right; exact ⟨rfl, preload, hf, by rw [heq, h]⟩
      · left; simp [module_open, hn, hm]

/-- The registry list produced by module_close is the original list, a
ref-count decrement on it, or a decrement followed by an unlink. -/
theorem module_close_mods (env : DlEnv) (st : Registry)
    (modptr : Option ModuleEntry) (preload : Bool) :
    (module_close env st modptr preload).st.mods = st.mods ∨
    (∃ i, (module_close env st modptr preload).st.mods =
        module_ref_dec st.mods i) ∨
    (∃ i, (module_close env st modptr preload).st.mods =
        module_del_list (module_ref_dec st.mods i) i) := by
  match modptr with
  | none => left; rfl
  | some m =>
      by_cases hh : m.handle = 0
      · left; simp [module_close, hh]
      · by_cases hr : m.ref_count = 0
        · left; simp [module_close, hh, hr]
        · by_cases h1 : m.ref_count - 1 = 0
          · right; right
            refine ⟨m.id, ?_⟩
            by_cases hpl : preload = true
            · simp [module_close, hh, hr, h1, hpl]
            · cases hc : env.dlcloseErr m.handle <;>
                simp [module_close, module_set_error, hh, hr, h1, hpl, hc]
          · right; left
            exact ⟨m.id, by simp [module_close, hh, hr, h1]⟩

/-- module_symbol never changes the registry list. -/
theorem module_symbol_mods (env : DlEnv) (st : Registry)
    (modptr : Option ModuleEntry) (str : Option String) :
    (module_symbol env st modptr str).st.mods = st.mods := by
  match modptr with
  | none => rfl
  | some m =>
      by_cases hh : m.handle = 0
      · simp [module_symbol, hh]
      · match str with
        | none => simp [module_symbol, hh]
        | some s =>
            cases hs : env.dlsymRes m.handle s <;>
              simp [module_symbol, module_set_error, hh, hs]

/-- Ref-count increments keep names pairwise distinct. -/
theorem uniqueNames_ref_inc (mods : List ModuleEntry) (i : Nat)
    (h : UniqueNames mods) : UniqueNames (module_ref_inc mods i) :=
  List.Pairwise.map _ (fun a b hab => by simpa [refIncF_name] using hab) h

/-- Ref-count increments keep handles pairwise distinct. -/
theorem uniqueHandles_ref_inc (mods : List ModuleEntry) (i : Nat)
    (h : UniqueHandles mods) : UniqueHandles (module_ref_inc mods i) :=
  List.Pairwise.map _ (fun a b hab => by simpa [refIncF_handle] using hab) h

/-- Ref-count decrements keep names pairwise distinct. -/
theorem uniqueNames_ref_dec (mods : List ModuleEntry) (i : Nat)
    (h : UniqueNames mods) : UniqueNames (module_ref_dec mods i) :=
  List.Pairwise.map _ (fun a b hab => by simpa [refDecF_name] using hab) h

/-- Ref-count decrements keep handles pairwise distinct. -/
theorem uniqueHandles_ref_dec (mods : List ModuleEntry) (i : Nat)
    (h : UniqueHandles mods) : UniqueHandles (module_ref_dec mods i) :=
  List.Pairwise.map _ (fun a b hab => by simpa [refDecF_handle] using hab) h

/-- Unlinking keeps names pairwise distinct. -/
theorem uniqueNames_del_list (mods : List ModuleEntry) (i : Nat)
    (h : UniqueNames mods) : UniqueNames (module_del_list mods i) :=
  h.sublist (module_del_list_sublist mods i)

/-- Unlinking keeps handles pairwise distinct. -/
theorem uniqueHandles_del_list (mods : List ModuleEntry) (i : Nat)
    (h : UniqueHandles mods) : UniqueHandles (module_del_list mods i) :=
  h.sublist (module_del_list_sublist mods i)

/-- Appending a node whose name no existing node carries keeps names
pairwise distinct. -/
theorem uniqueNames_append (mods : List ModuleEntry) (i : Nat)
    (file : String) (hnd : Nat) (hx : Bool)
    (hn : module_find_with_name mods file = none) (h : UniqueNames mods) :
    UniqueNames (mods ++ [⟨i, file, hnd, 1, hx⟩]) := by
  rw [UniqueNames, List.pairwise_append]
  refine ⟨h, List.pairwise_singleton _ _, ?_⟩
  intro a ha b hb
  rw [List.mem_singleton] at hb
  subst hb
  have hne := List.find?_eq_none.mp hn a ha
  simpa using hne

/-- Appending a node whose handle no existing node carries keeps handles
pairwise distinct. -/
theorem uniqueHandles_append (mods : List ModuleEntry) (i : Nat)
    (file : String) (hnd : Nat) (hx : Bool)
    (hf : module_find_with_handle mods hnd = none) (h : UniqueHandles mods) :
    UniqueHandles (mods ++ [⟨i, file, hnd, 1, hx⟩]) := by
  rw [UniqueHandles, List.pairwise_append]
  refine ⟨h, List.pairwise_singleton _ _, ?_⟩
  intro a ha b hb
  rw [List.mem_singleton] at hb
  subst hb
  have hne := List.find?_eq_none.mp hf a ha
  simpa using hne

/-- C3: every registry state reachable from the empty registry by
sequences of module_open, module_close and module_symbol calls holds at
most one entry per distinct name and at most one entry per distinct
underlying handle. -/
theorem c3_reachable_dedup_invariant (st : Registry) (h : Reachable st) :
    UniqueNames st.mods ∧ UniqueHandles st.mods := by
  induction h with
  | base => exact ⟨List.Pairwise.nil, List.Pairwise.nil⟩
  | open_step env st' file flag preload hr ih =>
      rcases module_open_mods env st' file flag preload
        with he | ⟨i, he⟩ | ⟨hn, hnd, hf, he⟩
      · rw [he]; exact ih
      · rw [he]
        exact ⟨uniqueNames_ref_inc _ _ ih.1, uniqueHandles_ref_inc _ _ ih.2⟩
      · rw [he]
        exact ⟨uniqueNames_append _ _ _ _ _ hn ih.1,
          uniqueHandles_append _ _ _ _ _ hf ih.2⟩
  | close_step env st' modptr preload hr ih =>
      rcases module_close_mods env st' modptr preload
        with he | ⟨i, he⟩ | ⟨i, he⟩
      · rw [he]; exact ih
      · rw [he]
        exact ⟨uniqueNames_ref_dec _ _ ih.1, uniqueHandles_ref_dec _ _ ih.2⟩
      · rw [he]
        exact ⟨uniqueNames_del_list _ _ (uniqueNames_ref_dec _ _ ih.1),
          uniqueHandles_del_list _ _ (uniqueHandles_ref_dec _ _ ih.2)⟩
  | symbol_step env st' modptr str hr ih =>
      rw [module_symbol_mods]; exact ih

/-- C3 witness: the invariant at the reachable state produced by one
successful open from the empty registry. -/
theorem c3_reachable_dedup_invariant_witness :
    UniqueNames (module_open envA Registry.empty ("libA.so") 0 0).st.mods ∧
    UniqueHandles (module_open envA Registry.empty ("libA.so") 0 0).st.mods :=
  c3_reachable_dedup_invariant _
    (Reachable.open_step envA Registry.empty ("libA.so") 0 0 Reachable.base)
